import Mathlib

/-!
Verification development for the databricks-sql client library.

The definitions below are a shallow embedding of the result-acquisition
pipeline: the statement data model (types.ts), the error classes
(errors.ts), the synchronous validation prefix of fetchStream and fetchRow,
the terminal-state classification of executeStatement, the chunk-URL
resolution of fetchStream (collectExternalUrls), and the schema-driven row
type decoder (createRowMapper.ts).

JavaScript host primitives that the code calls (JSON.parse, Number(),
BigInt(), String.prototype.trim, regular expressions) are modelled by
executable Lean functions over an explicit JavaScript value domain; each
such model is documented at its definition.  Asynchronous effects are
modelled by explicit oracles (the chunk-metadata service is a function from
a chunk index to its response) and by traces of events; runs are modelled
as non-aborted unless a claim is about cancellation.
-/

/-! ## JavaScript value domain -/

/-- A JavaScript number, as far as the decoder inspects one: either an
integral value, or a non-integral finite double kept opaque (identified by
its source text).  The decoder only ever asks Number.isInteger of a number
and passes non-integral numbers through unchanged, so no floating-point
arithmetic needs to be modelled. -/
inductive JSNum where
  | int (i : Int)
  | nonInt (srcTxt : String)
deriving DecidableEq

/-- A JavaScript runtime value, covering everything the row decoder can
meet in a cell: null, undefined, booleans, numbers, bigints, strings,
arrays and plain objects (ordered field lists, as JavaScript objects
preserve insertion order). -/
inductive JSValue where
  | null
  | undefined
  | bool (b : Bool)
  | num (n : JSNum)
  | bigint (i : Int)
  | str (s : String)
  | arr (elems : List JSValue)
  | obj (fields : List (String × JSValue))

/-! ## Data model (types.ts) -/

/-- Statement execution states (types.ts StatementState). -/
inductive StatementState where
  | PENDING
  | RUNNING
  | SUCCEEDED
  | FAILED
  | CANCELED
  | CLOSED
deriving DecidableEq

/-- The string a state renders as in a template literal: in TypeScript the
state is that string itself. -/
def stateToString : StatementState → String
  | .PENDING => "PENDING"
  | .RUNNING => "RUNNING"
  | .SUCCEEDED => "SUCCEEDED"
  | .FAILED => "FAILED"
  | .CANCELED => "CANCELED"
  | .CLOSED => "CLOSED"

/-- Server-reported error detail inside a statement status (types.ts).
The fields are modelled as optional because the code reads them
defensively (status.error?.message ?? ..., status.error?.error_code). -/
structure StatusError where
  error_code : Option String
  message : Option String
deriving DecidableEq

/-- Statement status (types.ts StatementStatus). -/
structure StatementStatus where
  state : StatementState
  error : Option StatusError
deriving DecidableEq

/-- Column schema information (types.ts ColumnInfo).  The declared type
text field is named typeTextStr here (type_text in the source). -/
structure ColumnInfo where
  name : String
  typeTextStr : String
  type_name : String
  position : Nat
  type_precision : Option Nat
  type_scale : Option Nat

/-- Result schema (types.ts StatementManifest.schema). -/
structure ResultSchema where
  column_count : Nat
  columns : List ColumnInfo

/-- Per-chunk metadata (types.ts ChunkInfo). -/
structure ChunkInfo where
  chunk_index : Nat
  row_offset : Nat
  row_count : Nat
  byte_count : Option Nat

/-- Result manifest (types.ts StatementManifest).  The format is kept as a
string tag such as "JSON_ARRAY", "ARROW_STREAM" or "CSV". -/
structure StatementManifest where
  format : String
  schema : ResultSchema
  total_chunk_count : Nat
  total_row_count : Option Nat
  total_byte_count : Option Nat
  truncated : Option Bool
  chunks : Option (List ChunkInfo)

/-- External link for chunked results (types.ts ExternalLinkInfo). -/
structure ExternalLinkInfo where
  chunk_index : Nat
  row_offset : Nat
  row_count : Nat
  byte_count : Nat
  external_link : String
  expiration : String

/-- Result data (types.ts ResultData): inline rows or external links.
The source declares the union with both fields optional and mutually
exclusive in type, so both appear here as options. -/
structure ResultData where
  data_array : Option (List (List JSValue))
  external_links : Option (List ExternalLinkInfo)

/-- Statement result from the API (types.ts StatementResult). -/
structure StatementResult where
  statement_id : String
  status : StatementStatus
  manifest : Option StatementManifest
  result : Option ResultData

/-- Chunk metadata response (types.ts GetChunkResponse). -/
structure GetChunkResponse where
  chunk_index : Nat
  row_offset : Nat
  row_count : Nat
  data_array : Option (List (List JSValue))
  external_links : Option (List ExternalLinkInfo)

/-! ## Errors (errors.ts) -/

/-- A thrown JavaScript error as observed by a caller: its class name, its
message, its machine-checkable code and the statement id it carries.
DatabricksSqlError and its subclasses all fit this shape. -/
structure JsError where
  name : String
  message : String
  code : String
  statementId : Option String
deriving DecidableEq

/-- Constructor of DatabricksSqlError (errors.ts): the code defaults to
UNKNOWN_ERROR when absent. -/
def DatabricksSqlError (message : String) (code : Option String)
    (statementId : Option String) : JsError :=
  { name := "DatabricksSqlError"
    message := message
    code := code.getD "UNKNOWN_ERROR"
    statementId := statementId }

/-- Constructor of StatementCancelledError (errors.ts): message template
"Statement <id> was cancelled", code CANCELLED, carries the id. -/
def StatementCancelledError (statementId : String) : JsError :=
  { DatabricksSqlError ("Statement " ++ statementId ++ " was cancelled")
      (some "CANCELLED") (some statementId) with
    name := "StatementCancelledError" }

/-- Constructor of AbortError (errors.ts): code ABORTED, no statement id. -/
def AbortError (message : String) : JsError :=
  { DatabricksSqlError message (some "ABORTED") none with
    name := "AbortError" }

/-! ## Synchronous validation (util.ts validateSucceededResult and the
precondition prefixes of fetchStream and fetchRow) -/

/-- util.ts validateSucceededResult: throws on a non-SUCCEEDED state, then
on a missing manifest; otherwise returns the manifest. -/
def validateSucceededResult (r : StatementResult) :
    Except JsError StatementManifest :=
  if r.status.state ≠ .SUCCEEDED then
    .error (DatabricksSqlError
      ("Cannot fetch from non-succeeded statement: " ++
        stateToString r.status.state)
      (some "INVALID_STATE") (some r.statement_id))
  else
    match r.manifest with
    | none => .error (DatabricksSqlError "Statement result has no manifest"
        (some "MISSING_MANIFEST") (some r.statement_id))
    | some m => .ok m

/-- The synchronous prefix of fetchStream (fetchStream.ts lines 19-52):
validateSucceededResult, then rejection of inline data_array payloads.
Everything here runs before the output stream is created and before any
network request; an error value is a synchronously thrown exception. -/
def fetchStreamValidate (r : StatementResult) :
    Except JsError StatementManifest := do
  let m ← validateSucceededResult r
  if (r.result.bind (fun d => d.data_array)).isSome then
    .error (DatabricksSqlError "fetchStream only supports EXTERNAL_LINKS results"
      (some "UNSUPPORTED_FORMAT") (some r.statement_id))
  else
    .ok m

/-- The processing path fetchRow commits to after validation. -/
inductive FetchRowPath where
  | externalStream (m : StatementManifest)
  | inlinePath (m : StatementManifest)

/-- The synchronous dispatch of fetchRow (fetchRow.ts lines 23-47):
validateSucceededResult, then, for an external-links payload, rejection of
any manifest format other than JSON_ARRAY.  An error value is raised
before any stream is opened and before any network request. -/
def fetchRowValidate (r : StatementResult) : Except JsError FetchRowPath := do
  let m ← validateSucceededResult r
  if (r.result.bind (fun d => d.external_links)).isSome then
    if m.format ≠ "JSON_ARRAY" then
      .error (DatabricksSqlError
        ("fetchRow only supports JSON_ARRAY for external_links. Received: " ++
          m.format)
        (some "UNSUPPORTED_FORMAT") (some r.statement_id))
    else
      .ok (.externalStream m)
  else
    .ok (.inlinePath m)

/-! ## Terminal-state classification (executeStatement.ts lines 123-136) -/

/-- executeStatement.ts terminal classification: SUCCEEDED returns the
result as-is, CANCELED raises StatementCancelledError, anything else
(FAILED or CLOSED after the polling loop) raises a DatabricksSqlError
built from the server-supplied error detail. -/
def handleTerminalState (r : StatementResult) :
    Except JsError StatementResult :=
  if r.status.state = .SUCCEEDED then
    .ok r
  else if r.status.state = .CANCELED then
    .error (StatementCancelledError r.statement_id)
  else
    .error (DatabricksSqlError
      ((r.status.error.bind (fun e => e.message)).getD "Statement execution failed")
      (r.status.error.bind (fun e => e.error_code))
      (some r.statement_id))

/-! ## Stream assembly routing (fetchStream.ts mergeChunksToStream) -/

/-- What mergeChunksToStream does with the resolved URL list: end the
output immediately, pipe one URL through unmerged, or hand the ordered
list plus the format tag to the external merge engine. -/
inductive StreamAction where
  | endEmpty
  | pipeSingle (url : String)
  | mergeUrls (format : String) (urls : List String)
deriving DecidableEq

/-- fetchStream.ts mergeChunksToStream (lines 57-79), after the URLs have
been resolved: zero URLs end the stream, a single URL without forceMerge
is piped directly, anything else goes to mergeStreamsFromUrls with the
manifest format. -/
def mergeChunksToStream (urls : List String) (format : String)
    (forceMerge : Bool) : StreamAction :=
  if urls.length = 0 then
    .endEmpty
  else if urls.length = 1 ∧ forceMerge = false then
    .pipeSingle (urls.headD "")
  else
    .mergeUrls format urls

/-! ## Chunk-URL resolution (fetchStream.ts collectExternalUrls) -/

/-- fetchStream.ts isNonEmptyString, specialised to strings (the wire type
of external_link). -/
def isNonEmptyString (s : String) : Bool :=
  s.length > 0

/-- fetchStream.ts extractExternalLinks: the external_link fields of the
given records, keeping only non-empty strings, in order. -/
def extractExternalLinks (externalLinks : Option (List ExternalLinkInfo)) :
    List String :=
  match externalLinks with
  | none => []
  | some links => (links.map (fun l => l.external_link)).filter isNonEmptyString

/-- src/api/fetchStream.ts collectExternalUrls (lines 81-105), on a
non-aborted run with every chunk-metadata fetch succeeding (the
chunk-metadata service is the oracle chunkAt).  The first component
records which chunk indices were fetched from the service, in request
order; the second is the returned URL list.  Note the early return: when
the payload carries any non-empty URL at all, those URLs are returned
as-is and no chunk metadata is fetched. -/
def collectExternalUrls (r : StatementResult) (manifest : StatementManifest)
    (chunkAt : Nat → GetChunkResponse) : List Nat × List String :=
  let urls := extractExternalLinks (r.result.bind (fun d => d.external_links))
  if urls.length > 0 then
    ([], urls)
  else if manifest.total_chunk_count = 0 then
    ([], [])
  else
    let idxs := List.range manifest.total_chunk_count
    (idxs, idxs.flatMap (fun i => extractExternalLinks (chunkAt i).external_links))

/-- The chunk-index keyed URL map of the revised collectExternalUrls
(the Map from chunk index to its URLs, in insertion order). -/
abbrev ChunkMap := List (Nat × List String)

/-- Membership test on the chunk map (Map.has). -/
def chunkMapHas (m : ChunkMap) (k : Nat) : Bool :=
  (m : List (Nat × List String)).any (fun e => e.1 = k)

/-- Map.get(k).push(url) respectively Map.set(k, [url]) of the revised
addChunkLinks: append to the existing bucket, else insert a new bucket at
the end. -/
def chunkMapAppend (m : ChunkMap) (k : Nat) (url : String) : ChunkMap :=
  if chunkMapHas m k then
    (m : List (Nat × List String)).map
      (fun e => if e.1 = k then (e.1, e.2 ++ [url]) else e)
  else
    (m : List (Nat × List String)) ++ [(k, [url])]

/-- addChunkLinks of the revised collectExternalUrls: fold the links with a
valid (non-empty) URL into the chunk map under their chunk_index. -/
def addChunkLinks (m : ChunkMap) (externalLinks : Option (List ExternalLinkInfo)) :
    ChunkMap :=
  match externalLinks with
  | none => m
  | some links =>
      links.foldl
        (fun acc l =>
          if isNonEmptyString l.external_link then
            chunkMapAppend acc l.chunk_index l.external_link
          else acc)
        m

/-- Stable insertion of a bucket into a key-sorted bucket list: the new
bucket goes after every bucket with a key less than or equal to its own,
so buckets with equal keys keep their original order (Array.prototype.sort
is stable). -/
def insertSorted (e : Nat × List String) :
    List (Nat × List String) → List (Nat × List String)
  | [] => [e]
  | f :: rest => if f.1 ≤ e.1 then f :: insertSorted e rest else e :: f :: rest

/-- Stable sort of the bucket list by ascending key, modelling the
entries-array sort by (a, b) => a - b. -/
def sortByKey (l : List (Nat × List String)) : List (Nat × List String) :=
  l.foldl (fun acc e => insertSorted e acc) []

/-- flattenChunkUrls of the revised collectExternalUrls: buckets sorted by
ascending chunk index, then concatenated (discovery order within a
chunk). -/
def flattenChunkUrls (m : ChunkMap) : List String :=
  (sortByKey m).flatMap (fun e => e.2)

/-- The per-index loop of the revised collectExternalUrls: indices already
present in the map are skipped, the rest are fetched from the
chunk-metadata service and merged in; the fetched indices are recorded in
request order. -/
def collectLoop (chunkAt : Nat → GetChunkResponse) :
    List Nat → ChunkMap → List Nat × ChunkMap
  | [], m => ([], m)
  | i :: rest, m =>
    if chunkMapHas m i then
      collectLoop chunkAt rest m
    else
      let m2 := addChunkLinks m (chunkAt i).external_links
      let res := collectLoop chunkAt rest m2
      (i :: res.1, res.2)

/-- The revised collectExternalUrls of fetchStream (the implementation the
test suite exercises): index the payload links by chunk index, fetch
metadata for every index in [0, total_chunk_count) not yet covered, and
flatten the map sorted by ascending chunk index.  The first component
records the fetched indices. -/
def collectExternalUrlsRev (r : StatementResult) (manifest : StatementManifest)
    (chunkAt : Nat → GetChunkResponse) : List Nat × List String :=
  let m0 := addChunkLinks [] (r.result.bind (fun d => d.external_links))
  if manifest.total_chunk_count = 0 then
    ([], flattenChunkUrls m0)
  else
    let res := collectLoop chunkAt (List.range manifest.total_chunk_count) m0
    (res.1, flattenChunkUrls res.2)

/-! ## The polling loop of executeStatement (executeStatement.ts
lines 97-121), as an event trace -/

/-- Membership in TERMINAL_STATES (executeStatement.ts line 17). -/
def isTerminal (s : StatementState) : Bool :=
  s = .SUCCEEDED ∨ s = .FAILED ∨ s = .CANCELED ∨ s = .CLOSED

/-- An observable event of the polling loop: an invocation of the progress
callback with the current result state, or a status re-fetch
(getStatement) returning the given state. -/
inductive PollEvent where
  | progress (s : StatementState)
  | statusFetch (s : StatementState)
deriving DecidableEq

/-- The while loop of executeStatement (lines 101-106) on a non-aborted
run with a progress callback supplied: while the current state is
non-terminal, invoke the callback, wait, and re-fetch the status.  The
successive getStatement responses are supplied as the list polls; the
result is the emitted event trace and the terminal state, or none when the
supplied responses run out before a terminal state (the real loop would
keep polling). -/
def pollLoop :
    StatementState → List StatementState → Option (List PollEvent × StatementState)
  | s, polls =>
    if isTerminal s then
      some ([], s)
    else
      match polls with
      | [] => none
      | s2 :: rest =>
          (pollLoop s2 rest).map
            (fun p => (.progress s :: .statusFetch s2 :: p.1, p.2))

/-- The full progress-relevant event trace of executeStatement: the loop
events followed by the one final progress invocation after the terminal
state is reached (line 121). -/
def executeStatementEvents (s : StatementState) (polls : List StatementState) :
    Option (List PollEvent × StatementState) :=
  (pollLoop s polls).map (fun p => (p.1 ++ [.progress p.2], p.2))

/-- Recogniser for progress events. -/
def isProgressEvent : PollEvent → Bool
  | .progress _ => true
  | .statusFetch _ => false

/-- Recogniser for status-fetch events. -/
def isFetchEvent : PollEvent → Bool
  | .progress _ => false
  | .statusFetch _ => true

/-! ## Cancellation (executeStatement.ts cancelStatementSafely,
lines 81-95 and 107-114) -/

/-- The mutable cancellation state of one executeStatement run: the
cancelIssued flag and the number of remote cancellation requests actually
sent. -/
structure CancelState where
  cancelIssued : Bool
  cancelRequests : Nat
deriving DecidableEq

/-- executeStatement.ts cancelStatementSafely: a no-op once cancelIssued is
set, otherwise it sets the flag and issues one remote cancellation
request.  The remote request result (remoteOk) is ignored because its
rejection is swallowed by the catch handler — the state transition and the
caller-visible outcome do not depend on it. -/
def cancelStatementSafely (st : CancelState) (_remoteOk : Bool) : CancelState :=
  if st.cancelIssued then
    st
  else
    { cancelIssued := true, cancelRequests := st.cancelRequests + 1 }

/-- The abort path of executeStatement (lines 107-112): when the signal
has fired before a terminal state, cancelStatementSafely runs and the
operation fails with AbortError("Aborted during polling"), whatever the
remote cancellation request returned. -/
def abortPath (st : CancelState) (remoteOk : Bool) :
    CancelState × Except JsError StatementResult :=
  (cancelStatementSafely st remoteOk,
   .error (AbortError "Aborted during polling"))

/-! ## Concrete inputs for the chunk-URL resolution claim, taken from the
repository test "should fetch missing chunks when only first external link
is present" (fetchStream.spec.ts) -/

/-- Manifest with two chunks. -/
def c1Manifest : StatementManifest :=
  { format := "JSON_ARRAY"
    schema := { column_count := 1, columns := [] }
    total_chunk_count := 2
    total_row_count := none
    total_byte_count := none
    truncated := none
    chunks := none }

/-- A SUCCEEDED external-link result whose payload carries a URL for chunk
0 only, out of total_chunk_count = 2. -/
def c1Result : StatementResult :=
  { statement_id := "chunk-test"
    status := { state := .SUCCEEDED, error := none }
    manifest := some c1Manifest
    result := some
      { data_array := none
        external_links := some
          [{ chunk_index := 0, row_offset := 0, row_count := 50
             byte_count := 500
             external_link := "https://mock/chunk0.json"
             expiration := "2025-12-25T12:00:00.000Z" }] } }

/-- The chunk-metadata service for the scenario: chunk 1 reports one URL. -/
def c1ChunkAt : Nat → GetChunkResponse :=
  fun i =>
    if i = 1 then
      { chunk_index := 1, row_offset := 50, row_count := 50
        data_array := none
        external_links := some
          [{ chunk_index := 1, row_offset := 50, row_count := 50
             byte_count := 500
             external_link := "https://mock/chunk1.json"
             expiration := "2025-12-25T12:00:00.000Z" }] }
    else
      { chunk_index := i, row_offset := 0, row_count := 0
        data_array := none, external_links := none }

/-! ## Character-level helpers for the host-primitive models -/

/-- Whitespace as trimmed by String.prototype.trim and skipped by JSON and
by Number()/BigInt() coercion; modelled as the four common whitespace
characters. -/
def isJsWhitespace (c : Char) : Bool :=
  c = ' ' ∨ c = '\t' ∨ c = '\n' ∨ c = '\r'

/-- String.prototype.trim on a character list. -/
def trimChars (l : List Char) : List Char :=
  ((l.dropWhile isJsWhitespace).reverse.dropWhile isJsWhitespace).reverse

/-- String.prototype.trim. -/
def trimStr (s : String) : String :=
  ⟨trimChars s.toList⟩

/-- The value of a decimal digit character. -/
def charToDigit (c : Char) : Option Nat :=
  if '0' ≤ c ∧ c ≤ '9' then some (c.toNat - 48) else none

/-- Decimal digit test. -/
def isDigitChar (c : Char) : Bool :=
  (charToDigit c).isSome

/-- The numeric value of a digit run. -/
def digitsVal (l : List Char) : Nat :=
  l.foldl (fun a c => 10 * a + (charToDigit c).getD 0) 0

/-- A non-empty all-digit run parsed to its value; none otherwise. -/
def parseDigits (l : List Char) : Option Nat :=
  if l ≠ [] ∧ l.all isDigitChar then some (digitsVal l) else none

/-- Models the BigInt() coercion of a string, restricted to decimal
integer literals: trim, empty becomes 0, an optional sign followed by a
non-empty digit run becomes its value, and everything else (where the real
coercion throws a SyntaxError, plus the unexercised binary/octal/hex
forms) becomes none.  The code only ever applies it inside a try/catch, so
none models the caught exception. -/
def parseBigInt (s : String) : Option Int :=
  let l := trimChars s.toList
  if l = [] then some 0
  else if l.headD ' ' = '+' then (parseDigits l.tail).map (fun n => (n : Int))
  else if l.headD ' ' = '-' then (parseDigits l.tail).map (fun n => -(n : Int))
  else (parseDigits l).map (fun n => (n : Int))

/-- The character of a decimal digit (values ten and above never occur). -/
def digitChar : Nat → Char
  | 0 => '0'
  | 1 => '1'
  | 2 => '2'
  | 3 => '3'
  | 4 => '4'
  | 5 => '5'
  | 6 => '6'
  | 7 => '7'
  | 8 => '8'
  | 9 => '9'
  | _ => '*'

/-- Most-significant-first decimal digits of a natural number; the fuel
bounds the recursion depth and any fuel above the digit count is enough. -/
def natToDigitsAux : Nat → Nat → List Char
  | 0, _ => []
  | fuel + 1, n =>
    if n < 10 then [digitChar n]
    else natToDigitsAux fuel (n / 10) ++ [digitChar (n % 10)]

/-- Decimal digits of a natural number. -/
def natToDigits (n : Nat) : List Char :=
  natToDigitsAux (n + 1) n

/-- Modelled from the spec: the decimal-string wire representation of an
integer (what String(n) or a template literal renders for a bigint), used
as the encoder side of the round-trip property. -/
def decimalString (n : Int) : String :=
  if n < 0 then ⟨'-' :: natToDigits n.natAbs⟩ else ⟨natToDigits n.natAbs⟩

/-- Models the Number() coercion of a string, restricted to decimal
literals: trim; empty becomes 0; an optional sign followed by digits with
an optional fractional part.  A value with a non-zero fractional part is a
non-integral double and stays opaque (carried as its trimmed source text);
anything else (where the real coercion yields NaN; exponent and hex forms
are unexercised) becomes none, which models NaN since the caller only
checks Number.isNaN. -/
def jsNumberOfString (s : String) : Option JSNum :=
  let l := trimChars s.toList
  if l = [] then some (.int 0)
  else
    let sb : Bool × List Char :=
      match l with
      | '+' :: rest => (false, rest)
      | '-' :: rest => (true, rest)
      | _ => (false, l)
    let neg := sb.1
    let body := sb.2
    match body.findIdx? (fun c => c = '.') with
    | none =>
        (parseDigits body).map
          (fun n => .int (if neg then -(n : Int) else (n : Int)))
    | some i =>
        let ip := body.take i
        let fp := body.drop (i + 1)
        if (ip ≠ [] ∨ fp ≠ []) ∧ ip.all isDigitChar ∧ fp.all isDigitChar then
          if fp.all (fun c => c = '0') then
            some (.int (if neg then -(digitsVal ip : Int) else (digitsVal ip : Int)))
          else
            some (.nonInt ⟨l⟩)
        else none

/-! ## JavaScript object helpers -/

/-- Property read raw[name]: the first binding of the name, undefined when
absent. -/
def objGet (fields : List (String × JSValue)) (name : String) : JSValue :=
  match fields.find? (fun f => f.1 = name) with
  | some f => f.2
  | none => .undefined

/-- Property write mapped[name] = v: overwrite in place when the name is
already bound (JavaScript keeps the original key position), else append. -/
def objSet (fields : List (String × JSValue)) (name : String) (v : JSValue) :
    List (String × JSValue) :=
  if fields.any (fun f => f.1 = name) then
    fields.map (fun f => if f.1 = name then (f.1, v) else f)
  else
    fields ++ [(name, v)]

/-! ## JSON.parse model -/

/-- Skip JSON whitespace. -/
def skipWs (l : List Char) : List Char :=
  l.dropWhile isJsWhitespace

mutual

/-- Models JSON.parse on one value, restricted to the fragment the decoder
meets: null, true, false, integer numbers, strings without escape
sequences, arrays and objects.  Returns the value and the unconsumed
input; the fuel bounds nesting and element count and any fuel above twice
the input length is enough. -/
def jsonVal : Nat → List Char → Option (JSValue × List Char)
  | 0, _ => none
  | fuel + 1, cs0 =>
    match skipWs cs0 with
    | 'n' :: 'u' :: 'l' :: 'l' :: rest => some (.null, rest)
    | 't' :: 'r' :: 'u' :: 'e' :: rest => some (.bool true, rest)
    | 'f' :: 'a' :: 'l' :: 's' :: 'e' :: rest => some (.bool false, rest)
    | '"' :: rest =>
        let body := rest.takeWhile (fun c => ¬ c = '"')
        match rest.drop body.length with
        | '"' :: rest2 => some (.str ⟨body⟩, rest2)
        | _ => none
    | '[' :: rest =>
        match skipWs rest with
        | ']' :: rest2 => some (.arr [], rest2)
        | rest2 => jsonElems fuel [] rest2
    | '{' :: rest =>
        match skipWs rest with
        | '}' :: rest2 => some (.obj [], rest2)
        | rest2 => jsonMembers fuel [] rest2
    | '-' :: rest =>
        let ds := rest.takeWhile isDigitChar
        match parseDigits ds with
        | some n => some (.num (.int (-(n : Int))), rest.drop ds.length)
        | none => none
    | c :: rest =>
        if isDigitChar c then
          let ds := (c :: rest).takeWhile isDigitChar
          some (.num (.int (digitsVal ds)), (c :: rest).drop ds.length)
        else none
    | [] => none

/-- Array elements after the opening bracket of a non-empty array. -/
def jsonElems : Nat → List JSValue → List Char → Option (JSValue × List Char)
  | 0, _, _ => none
  | fuel + 1, acc, cs =>
    match jsonVal fuel cs with
    | none => none
    | some (v, rest) =>
      match skipWs rest with
      | ',' :: rest2 => jsonElems fuel (acc ++ [v]) rest2
      | ']' :: rest2 => some (.arr (acc ++ [v]), rest2)
      | _ => none

/-- Object members after the opening brace of a non-empty object; a
duplicate key overwrites the earlier value in place, as JSON.parse does. -/
def jsonMembers : Nat → List (String × JSValue) → List Char →
    Option (JSValue × List Char)
  | 0, _, _ => none
  | fuel + 1, acc, cs =>
    match skipWs cs with
    | '"' :: rest =>
      let key := rest.takeWhile (fun c => ¬ c = '"')
      match rest.drop key.length with
      | '"' :: rest2 =>
        match skipWs rest2 with
        | ':' :: rest3 =>
          match jsonVal fuel rest3 with
          | none => none
          | some (v, rest4) =>
            match skipWs rest4 with
            | ',' :: rest5 => jsonMembers fuel (objSet acc ⟨key⟩ v) rest5
            | '}' :: rest5 => some (.obj (objSet acc ⟨key⟩ v), rest5)
            | _ => none
        | _ => none
      | _ => none
    | _ => none

end

/-- Models JSON.parse: parse one value and require the rest to be
whitespace. -/
def jsonParse (s : String) : Option JSValue :=
  match jsonVal (2 * s.length + 2) s.toList with
  | some (v, rest) => if skipWs rest = [] then some v else none
  | none => none

/-! ## Declared-type grammar (createRowMapper.ts lines 151-310) -/

/-- The recursive type descriptor parsed from a declared column type
(createRowMapper.ts TypeDescriptor): a leaf name plus optional decimal
precision/scale, struct fields, array element type and map key/value
types.  The declared type text field is named typeTextStr here (typeText
in the source). -/
inductive TypeDescriptor where
  | mk (typeName : String) (typeTextStr : String)
       (precision : Option Nat) (scale : Option Nat)
       (fields : Option (List (String × TypeDescriptor)))
       (elementType : Option TypeDescriptor)
       (keyType : Option TypeDescriptor)
       (valueType : Option TypeDescriptor)

/-- Projection typeName. -/
def TypeDescriptor.typeName : TypeDescriptor → String
  | .mk n _ _ _ _ _ _ _ => n

/-- Projection typeTextStr (typeText in the source). -/
def TypeDescriptor.typeTextStr : TypeDescriptor → String
  | .mk _ t _ _ _ _ _ _ => t

/-- Projection precision. -/
def TypeDescriptor.precision : TypeDescriptor → Option Nat
  | .mk _ _ p _ _ _ _ _ => p

/-- Projection scale. -/
def TypeDescriptor.scale : TypeDescriptor → Option Nat
  | .mk _ _ _ s _ _ _ _ => s

/-- Projection fields. -/
def TypeDescriptor.fields : TypeDescriptor → Option (List (String × TypeDescriptor))
  | .mk _ _ _ _ f _ _ _ => f

/-- Projection elementType. -/
def TypeDescriptor.elementType : TypeDescriptor → Option TypeDescriptor
  | .mk _ _ _ _ _ e _ _ => e

/-- Projection keyType. -/
def TypeDescriptor.keyType : TypeDescriptor → Option TypeDescriptor
  | .mk _ _ _ _ _ _ k _ => k

/-- Projection valueType. -/
def TypeDescriptor.valueType : TypeDescriptor → Option TypeDescriptor
  | .mk _ _ _ _ _ _ _ v => v

/-- A descriptor with only a type name and type text. -/
def leafDescriptor (typeName typeTextStr : String) : TypeDescriptor :=
  .mk typeName typeTextStr none none none none none none

/-- createRowMapper.ts createDecimalDescriptor: the base descriptor with
precision and scale set when defined. -/
def createDecimalDescriptor (typeName typeTextStr : String)
    (precision scale : Option Nat) : TypeDescriptor :=
  .mk typeName typeTextStr precision scale none none none none

/-- createRowMapper.ts getTypeName: the leading run matched by the
regular expression of one or more characters in [A-Z_], falling back to
the whole text when the first character does not match. -/
def getTypeName (typeTextStr : String) : String :=
  let m := typeTextStr.toList.takeWhile (fun c => ('A' ≤ c ∧ c ≤ 'Z') ∨ c = '_')
  if m.isEmpty then typeTextStr else ⟨m⟩

/-- The loop of createRowMapper.ts stripNotNull; the fuel bounds the
iteration count and the string length is always enough since each
iteration removes eight characters. -/
def stripNotNullAux : Nat → List Char → List Char
  | 0, l => l
  | fuel + 1, l =>
    if ("NOT NULL".toList).isSuffixOf l then
      stripNotNullAux fuel (trimChars (l.take (l.length - 8)))
    else l

/-- createRowMapper.ts stripNotNull: trim, then repeatedly remove a
trailing "NOT NULL" and re-trim. -/
def stripNotNull (s : String) : String :=
  ⟨stripNotNullAux (s.length + 1) (trimChars s.toList)⟩

/-- The character loop of createRowMapper.ts splitTopLevel: depth counters
for angle brackets and parentheses are updated first; a comma at depth
zero ends the current piece (which is pushed trimmed), any other character
is appended to it; at the end the last piece is pushed only when its trim
is non-empty. -/
def splitTopLevelGo : List Char → Int → Int → List Char → List (List Char)
  | [], _, _, current =>
    if (trimChars current).length > 0 then [trimChars current] else []
  | c :: rest, angleDepth, parenDepth, current =>
    let angleDepth := if c = '<' then angleDepth + 1 else angleDepth
    let angleDepth := if c = '>' then angleDepth - 1 else angleDepth
    let parenDepth := if c = '(' then parenDepth + 1 else parenDepth
    let parenDepth := if c = ')' then parenDepth - 1 else parenDepth
    if c = ',' ∧ angleDepth = 0 ∧ parenDepth = 0 then
      trimChars current :: splitTopLevelGo rest angleDepth parenDepth []
    else
      splitTopLevelGo rest angleDepth parenDepth (current ++ [c])

/-- createRowMapper.ts splitTopLevel. -/
def splitTopLevel (value : List Char) : List (List Char) :=
  splitTopLevelGo value 0 0 []

/-- The shared slice of parseStructFields and parseTypeArguments: the text
between the first angle-open and the last angle-close, none when either is
missing or the close does not come after the open. -/
def innerSegment (l : List Char) : Option (List Char) :=
  match l.findIdx? (fun c => c = '<'),
      (l.reverse.findIdx? (fun c => c = '>')).map (fun i => l.length - 1 - i) with
  | some s, some e =>
      if e ≤ s then none else some ((l.drop (s + 1)).take (e - s - 1))
  | _, _ => none

/-- The field list of createRowMapper.ts parseStructFields before the
recursive descent: each top-level piece is split at its first colon into a
trimmed name and a trimmed, NOT NULL-stripped field type text; pieces
without a colon or with an empty name are skipped. -/
def structFieldParts (typeTextStr : String) : List (String × String) :=
  match innerSegment typeTextStr.toList with
  | none => []
  | some inner =>
    (splitTopLevel inner).filterMap (fun part =>
      match part.findIdx? (fun c => c = ':') with
      | none => none
      | some sep =>
        let name : String := ⟨trimChars (part.take sep)⟩
        let ftext : String := stripNotNull (trimStr ⟨part.drop (sep + 1)⟩)
        if name = "" then none else some (name, ftext))

/-- createRowMapper.ts parseTypeArguments: the top-level pieces of the
inner segment; when there are at least expectedCount of them, the first
expectedCount trimmed and NOT NULL-stripped, else the pieces as they
are. -/
def parseTypeArguments (typeTextStr : String) (expectedCount : Nat) :
    List String :=
  match innerSegment typeTextStr.toList with
  | none => []
  | some inner =>
    let parts := splitTopLevel inner
    if parts.length < expectedCount then
      parts.map (fun p => (⟨p⟩ : String))
    else
      (parts.take expectedCount).map (fun p => stripNotNull ⟨trimChars p⟩)

/-- One attempt of the regular expression DECIMAL\((digits),\s*(digits)\)
at the head of the input. -/
def matchDecimalAt (l : List Char) : Option (Nat × Nat) :=
  if ("DECIMAL(".toList).isPrefixOf l then
    let l1 := l.drop 8
    let ds1 := l1.takeWhile isDigitChar
    if ds1 = [] then none
    else
      match l1.drop ds1.length with
      | ',' :: l3 =>
        let l4 := l3.dropWhile isJsWhitespace
        let ds2 := l4.takeWhile isDigitChar
        if ds2 = [] then none
        else
          match l4.drop ds2.length with
          | ')' :: _ => some (digitsVal ds1, digitsVal ds2)
          | _ => none
      | _ => none
  else none

/-- The unanchored regular-expression search: try each start position in
turn. -/
def decimalScan : List Char → Option (Nat × Nat)
  | [] => none
  | c :: rest =>
    match matchDecimalAt (c :: rest) with
    | some r => some r
    | none => decimalScan rest

/-- createRowMapper.ts parseDecimalInfo: precision and scale from the
first match of DECIMAL\((digits),\s*(digits)\) anywhere in the text; both
absent when there is no match. -/
def parseDecimalInfo (typeTextStr : String) : Option Nat × Option Nat :=
  match decimalScan typeTextStr.toList with
  | none => (none, none)
  | some ps => (some ps.1, some ps.2)

/-- createRowMapper.ts parseTypeDescriptor: trim, take the leading type
name, and dispatch: STRUCT parses its fields recursively, ARRAY its single
type argument, MAP its two type arguments (each set only when the
extracted text is non-empty, matching the truthiness guards), DECIMAL its
precision and scale; everything else is a leaf.  The fuel bounds the
grammar nesting depth and the text length is always enough since each
level consumes at least one character. -/
def parseTypeDescriptorF : Nat → String → TypeDescriptor
  | 0, typeTextStr => leafDescriptor (getTypeName (trimStr typeTextStr)) (trimStr typeTextStr)
  | fuel + 1, typeTextStr =>
    let trimmed := trimStr typeTextStr
    let typeName := getTypeName trimmed
    if typeName = "STRUCT" then
      .mk typeName trimmed none none
        (some ((structFieldParts trimmed).map
          (fun f => (f.1, parseTypeDescriptorF fuel f.2))))
        none none none
    else if typeName = "ARRAY" then
      let args := parseTypeArguments trimmed 1
      .mk typeName trimmed none none none
        ((args[0]?).bind (fun a =>
          if a = "" then none else some (parseTypeDescriptorF fuel a)))
        none none
    else if typeName = "MAP" then
      let args := parseTypeArguments trimmed 2
      .mk typeName trimmed none none none none
        ((args[0]?).bind (fun a =>
          if a = "" then none else some (parseTypeDescriptorF fuel a)))
        ((args[1]?).bind (fun a =>
          if a = "" then none else some (parseTypeDescriptorF fuel a)))
    else if typeName = "DECIMAL" then
      let ps := parseDecimalInfo trimmed
      createDecimalDescriptor typeName trimmed ps.1 ps.2
    else
      leafDescriptor typeName trimmed

/-- createRowMapper.ts parseTypeDescriptor at sufficient fuel. -/
def parseTypeDescriptor (typeTextStr : String) : TypeDescriptor :=
  parseTypeDescriptorF (typeTextStr.length + 1) typeTextStr

/-- createRowMapper.ts parseColumnType: STRUCT, ARRAY and MAP columns go
through the grammar parser; DECIMAL columns prefer the structured
precision/scale from the API; everything else is a leaf. -/
def parseColumnType (column : ColumnInfo) : TypeDescriptor :=
  if column.type_name = "STRUCT" ∨ column.type_name = "ARRAY" ∨
      column.type_name = "MAP" then
    parseTypeDescriptor column.typeTextStr
  else if column.type_name = "DECIMAL" then
    createDecimalDescriptor column.type_name column.typeTextStr
      column.type_precision column.type_scale
  else
    leafDescriptor column.type_name column.typeTextStr

/-! ## Value conversion (createRowMapper.ts lines 312-490) -/

/-- The type buckets of createRowMapper.ts lines 81-90. -/
def INTEGER_TYPES : List String := ["TINYINT", "SMALLINT", "INT"]

/-- BIGINT bucket. -/
def BIGINT_TYPES : List String := ["BIGINT", "LONG"]

/-- FLOAT bucket. -/
def FLOAT_TYPES : List String := ["FLOAT", "DOUBLE"]

/-- BOOLEAN bucket. -/
def BOOLEAN_TYPES : List String := ["BOOLEAN"]

/-- TIMESTAMP bucket. -/
def TIMESTAMP_TYPES : List String := ["TIMESTAMP", "TIMESTAMP_NTZ", "TIMESTAMP_LTZ"]

/-- STRING bucket. -/
def STRING_TYPES : List String := ["STRING", "DATE", "TIME"]

/-- The optional encoding hooks of createRowMapper.ts RowMapperOptions,
modelled as pure functions. -/
structure RowMapperOptions where
  encodeBigInt : Option (Int → JSValue) := none
  encodeTimestamp : Option (String → JSValue) := none

/-- The null/undefined early return of convertValue. -/
def isNullish : JSValue → Bool
  | .null => true
  | .undefined => true
  | _ => false

/-- createRowMapper.ts convertNumber: numbers pass through; a string is
coerced with Number() and kept unchanged when that yields NaN; everything
else passes through. -/
def convertNumber (value : JSValue) : JSValue :=
  match value with
  | .num _ => value
  | .str s =>
    match jsNumberOfString s with
    | some n => .num n
    | none => value
  | _ => value

/-- createRowMapper.ts convertInteger: a bigint is kept (or re-encoded by
the hook); an integral number is converted to the exact bigint; a
non-integral number passes through; a string is coerced with BigInt()
inside a try/catch, the caught failure returning the string unchanged;
everything else passes through. -/
def convertInteger (value : JSValue) (encodeBigInt : Option (Int → JSValue)) :
    JSValue :=
  match value with
  | .bigint i =>
    match encodeBigInt with
    | some f => f i
    | none => .bigint i
  | .num (.int i) =>
    match encodeBigInt with
    | some f => f i
    | none => .bigint i
  | .num (.nonInt _) => value
  | .str s =>
    match parseBigInt s with
    | some i =>
      match encodeBigInt with
      | some f => f i
      | none => .bigint i
    | none => value
  | _ => value

/-- createRowMapper.ts convertTimestamp: only strings are touched, and
only by the optional hook. -/
def convertTimestamp (value : JSValue)
    (encodeTimestamp : Option (String → JSValue)) : JSValue :=
  match value with
  | .str s =>
    match encodeTimestamp with
    | some f => f s
    | none => value
  | _ => value

/-- createRowMapper.ts convertBoolean: the literal strings true and false
become booleans, everything else passes through. -/
def convertBool (value : JSValue) : JSValue :=
  match value with
  | .bool _ => value
  | .str s =>
    if s = "true" then .bool true
    else if s = "false" then .bool false
    else value
  | _ => value

/-- createRowMapper.ts parseJsonValue: a string goes through JSON.parse,
a parse failure raising DatabricksSqlError with code INVALID_JSON;
anything else is returned as-is. -/
def parseJsonValue (value : JSValue) : Except JsError JSValue :=
  match value with
  | .str s =>
    match jsonParse s with
    | some v => .ok v
    | none => .error (DatabricksSqlError "Failed to parse JSON value"
        (some "INVALID_JSON") none)
  | _ => .ok value

/-- createRowMapper.ts parseStructValue: both branches return the parsed
value (the conditional there only narrows the static type). -/
def parseStructValue (value : JSValue) : Except JsError JSValue :=
  parseJsonValue value

/-- Models the String() coercion applied to converted map keys.  Arrays
would render as their joined elements; that case is unexercised and
approximated by the empty string. -/
def jsToString (value : JSValue) : String :=
  match value with
  | .str s => s
  | .num (.int i) => decimalString i
  | .num (.nonInt t) => t
  | .bigint i => decimalString i
  | .bool b => if b then "true" else "false"
  | .null => "null"
  | .undefined => "undefined"
  | .arr _ => ""
  | .obj _ => "[object Object]"

/-- The field loop of createRowMapper.ts convertStructValue, over a given
per-field converter: mapped[field.name] = convert(field.type,
raw[field.name]), a thrown error propagating. -/
def convertStructFieldsWith
    (conv : TypeDescriptor → JSValue → Except JsError JSValue) :
    List (String × TypeDescriptor) → List (String × JSValue) →
    List (String × JSValue) → Except JsError (List (String × JSValue))
  | [], _, mapped => .ok mapped
  | f :: rest, raw, mapped =>
    match conv f.2 (objGet raw f.1) with
    | .error e => .error e
    | .ok v => convertStructFieldsWith conv rest raw (objSet mapped f.1 v)

/-- The element map of createRowMapper.ts convertArrayValue, over a given
element converter. -/
def convertElemsWith (conv : JSValue → Except JsError JSValue) :
    List JSValue → Except JsError (List JSValue)
  | [] => .ok []
  | v :: rest =>
    match conv v with
    | .error e => .error e
    | .ok w =>
      match convertElemsWith conv rest with
      | .error e => .error e
      | .ok ws => .ok (w :: ws)

/-- The entry loop of createRowMapper.ts convertMapValue on a list of
[key, value] pairs: entries that are not arrays of length at least two are
skipped; converted keys are stringified. -/
def convertMapPairsWith (convK convV : JSValue → Except JsError JSValue) :
    List JSValue → List (String × JSValue) →
    Except JsError (List (String × JSValue))
  | [], mapped => .ok mapped
  | e :: rest, mapped =>
    match e with
    | .arr (k :: v :: _) =>
      match convK k with
      | .error err => .error err
      | .ok ck =>
        match convV v with
        | .error err => .error err
        | .ok cv => convertMapPairsWith convK convV rest (objSet mapped (jsToString ck) cv)
    | _ => convertMapPairsWith convK convV rest mapped

/-- The Object.entries loop of createRowMapper.ts convertMapValue on an
object: each key is converted as a string through the key descriptor. -/
def convertMapObjWith (convK convV : JSValue → Except JsError JSValue) :
    List (String × JSValue) → List (String × JSValue) →
    Except JsError (List (String × JSValue))
  | [], mapped => .ok mapped
  | kv :: rest, mapped =>
    match convK (.str kv.1) with
    | .error err => .error err
    | .ok ck =>
      match convV kv.2 with
      | .error err => .error err
      | .ok cv => convertMapObjWith convK convV rest (objSet mapped (jsToString ck) cv)

/-- createRowMapper.ts convertValue (with convertStructValue,
convertArrayValue and convertMapValue inlined at their call sites):
null/undefined pass through; a STRUCT descriptor with fields parses the
cell as JSON and converts each declared field by name when the parse
yields a (non-array) object, returning the original value otherwise;
ARRAY and MAP behave analogously; DECIMAL, the integer bucket and the
float bucket use convertNumber; the BIGINT bucket uses convertInteger;
BOOLEAN and TIMESTAMP use their converters; the STRING bucket and unknown
type names pass through.  The fuel bounds descriptor nesting and any fuel
above the nesting depth is enough. -/
def convertValueF : Nat → TypeDescriptor → JSValue → RowMapperOptions →
    Except JsError JSValue
  | 0, _, value, _ => .ok value
  | fuel + 1, descriptor, value, options =>
    if isNullish value then .ok value
    else if descriptor.typeName = "STRUCT" ∧ descriptor.fields.isSome then
      match parseStructValue value with
      | .error e => .error e
      | .ok raw =>
        match raw with
        | .obj rawFields =>
          match convertStructFieldsWith
              (fun t x => convertValueF fuel t x options)
              (descriptor.fields.getD []) rawFields [] with
          | .error e => .error e
          | .ok mapped => .ok (.obj mapped)
        | _ => .ok value
    else if descriptor.typeName = "ARRAY" ∧ descriptor.elementType.isSome then
      match parseJsonValue value with
      | .error e => .error e
      | .ok raw =>
        match raw with
        | .arr elems =>
          match convertElemsWith
              (fun x => convertValueF fuel
                (descriptor.elementType.getD (leafDescriptor "" "")) x options)
              elems with
          | .error e => .error e
          | .ok ws => .ok (.arr ws)
        | _ => .ok value
    else if descriptor.typeName = "MAP" ∧ descriptor.keyType.isSome ∧
        descriptor.valueType.isSome then
      match parseJsonValue value with
      | .error e => .error e
      | .ok raw =>
        match raw with
        | .arr entries =>
          match convertMapPairsWith
              (fun x => convertValueF fuel
                (descriptor.keyType.getD (leafDescriptor "" "")) x options)
              (fun x => convertValueF fuel
                (descriptor.valueType.getD (leafDescriptor "" "")) x options)
              entries [] with
          | .error e => .error e
          | .ok mapped => .ok (.obj mapped)
        | .obj rawFields =>
          match convertMapObjWith
              (fun x => convertValueF fuel
                (descriptor.keyType.getD (leafDescriptor "" "")) x options)
              (fun x => convertValueF fuel
                (descriptor.valueType.getD (leafDescriptor "" "")) x options)
              rawFields [] with
          | .error e => .error e
          | .ok mapped => .ok (.obj mapped)
        | _ => .ok value
    else if descriptor.typeName = "DECIMAL" then .ok (convertNumber value)
    else if INTEGER_TYPES.contains descriptor.typeName then .ok (convertNumber value)
    else if BIGINT_TYPES.contains descriptor.typeName then
      .ok (convertInteger value options.encodeBigInt)
    else if FLOAT_TYPES.contains descriptor.typeName then .ok (convertNumber value)
    else if BOOLEAN_TYPES.contains descriptor.typeName then .ok (convertBool value)
    else if TIMESTAMP_TYPES.contains descriptor.typeName then
      .ok (convertTimestamp value options.encodeTimestamp)
    else if STRING_TYPES.contains descriptor.typeName then .ok value
    else .ok value

/-- createRowMapper.ts convertValue at sufficient fuel (the descriptor
nesting depth never exceeds the length of the type text it was parsed
from). -/
def convertValue (descriptor : TypeDescriptor) (value : JSValue)
    (options : RowMapperOptions) : Except JsError JSValue :=
  convertValueF (descriptor.typeTextStr.length + 1) descriptor value options

/-- createRowMapper.ts createColumnConverter: the column type is parsed
once and the converter closes over it. -/
def createColumnConverter (column : ColumnInfo) (options : RowMapperOptions) :
    JSValue → Except JsError JSValue :=
  fun value => convertValue (parseColumnType column) value options

/-- The row loop of the JSON_OBJECT mapper of createRowMapper.ts: for each
precomputed (name, converter) pair in column order, a truthy (non-empty)
name receives the converted cell row[index]; reading past the end of the
row yields undefined. -/
def mapRowGo : List (String × (JSValue → Except JsError JSValue)) → Nat →
    List JSValue → List (String × JSValue) →
    Except JsError (List (String × JSValue))
  | [], _, _, mapped => .ok mapped
  | nc :: rest, index, row, mapped =>
    if nc.1 = "" then mapRowGo rest (index + 1) row mapped
    else
      match nc.2 (row.getD index .undefined) with
      | .error e => .error e
      | .ok v => mapRowGo rest (index + 1) row (objSet mapped nc.1 v)

/-- createRowMapper.ts createRowMapper: the identity mapper (the row
itself) unless JSON_OBJECT output is requested, in which case each row is
mapped to an object through the precomputed per-column converters. -/
def createRowMapper (manifest : StatementManifest) (format : Option String)
    (options : RowMapperOptions) : List JSValue → Except JsError JSValue :=
  if format ≠ some "JSON_OBJECT" then
    fun row => .ok (.arr row)
  else
    let columnConverters := manifest.schema.columns.map
      (fun c => (c.name, createColumnConverter c options))
    fun row =>
      match mapRowGo columnConverters 0 row [] with
      | .error e => .error e
      | .ok mapped => .ok (.obj mapped)

/-! ## Concrete inputs for the decoder claims -/

/-- The STRUCT column of the scenario claim. -/
def c8Column : ColumnInfo :=
  { name := "nested"
    typeTextStr := "STRUCT<a: INT NOT NULL, b: STRUCT<c: STRING NOT NULL, big: BIGINT NOT NULL>>"
    type_name := "STRUCT"
    position := 0
    type_precision := none
    type_scale := none }

/-- A one-column manifest holding the STRUCT column. -/
def c8Manifest : StatementManifest :=
  { format := "JSON_ARRAY"
    schema := { column_count := 1, columns := [c8Column] }
    total_chunk_count := 1
    total_row_count := some 1
    total_byte_count := none
    truncated := none
    chunks := none }

/-- The JSON-encoded cell of the scenario claim. -/
def c8Cell : String :=
  "\x7b\"a\":\"1\",\"b\":\x7b\"c\":\"x\",\"big\":\"9007199254740993\"\x7d\x7d"

/-- A BIGINT column. -/
def bigintColumn : ColumnInfo :=
  { name := "big"
    typeTextStr := "BIGINT"
    type_name := "BIGINT"
    position := 0
    type_precision := none
    type_scale := none }

/-- A one-column manifest holding the BIGINT column. -/
def bigintManifest : StatementManifest :=
  { format := "JSON_ARRAY"
    schema := { column_count := 1, columns := [bigintColumn] }
    total_chunk_count := 1
    total_row_count := none
    total_byte_count := none
    truncated := none
    chunks := none }

/-- Success recogniser on the conversion result. -/
def exceptIsOk : Except JsError JSValue → Bool
  | .ok _ => true
  | .error _ => false

/-- A result still in PENDING state. -/
def pendingResult : StatementResult :=
  { statement_id := "test"
    status := { state := .PENDING, error := none }
    manifest := none
    result := none }

/-- A SUCCEEDED result with no manifest. -/
def noManifestResult : StatementResult :=
  { statement_id := "test"
    status := { state := .SUCCEEDED, error := none }
    manifest := none
    result := none }

/-- A SUCCEEDED result carrying inline data_array. -/
def inlineResult : StatementResult :=
  { statement_id := "inline-test"
    status := { state := .SUCCEEDED, error := none }
    manifest := some c1Manifest
    result := some { data_array := some [[.str "1"]], external_links := none } }

/-- A SUCCEEDED result for the terminal-classification claim. -/
def succeededResult : StatementResult :=
  { statement_id := "ok-test"
    status := { state := .SUCCEEDED, error := none }
    manifest := some c1Manifest
    result := some { data_array := some [[.str "1"]], external_links := none } }

/-- A CANCELED result. -/
def canceledResult : StatementResult :=
  { statement_id := "cancel-test"
    status := { state := .CANCELED, error := none }
    manifest := none
    result := none }

/-- A FAILED result with server-supplied error detail, as in the test
fixture mockFailedResult. -/
def failedResult : StatementResult :=
  { statement_id := "01f0e17f-failed-test"
    status :=
      { state := .FAILED
        error := some { error_code := some "SYNTAX_ERROR"
                        message := some "Syntax error in SQL statement" } }
    manifest := none
    result := none }

/-- A CLOSED result without error detail. -/
def closedResult : StatementResult :=
  { statement_id := "closed-test"
    status := { state := .CLOSED, error := none }
    manifest := none
    result := none }

/-- A SUCCEEDED external-link result whose manifest format is CSV. -/
def csvExternalResult : StatementResult :=
  { statement_id := "csv-test"
    status := { state := .SUCCEEDED, error := none }
    manifest := some
      { format := "CSV"
        schema := { column_count := 1, columns := [] }
        total_chunk_count := 1
        total_row_count := none
        total_byte_count := none
        truncated := none
        chunks := none }
    result := some
      { data_array := none
        external_links := some
          [{ chunk_index := 0, row_offset := 0, row_count := 1
             byte_count := 10
             external_link := "https://mock/chunk0.csv"
             expiration := "2025-12-25T12:00:00.000Z" }] } }

/-! # Theorems -/

/-! ## Helper lemmas -/

/-- Reduction of the Except bind on a success value. -/
theorem exceptBind_ok {a b : Type} (x : a) (f : a → Except JsError b) :
    (do let y ← Except.ok x; f y) = f x := rfl

/-- Folding further triggers over an already-issued cancellation state
changes nothing. -/
theorem foldl_cancel_fixed (triggers : List Bool) (st : CancelState)
    (h : st.cancelIssued = true) :
    triggers.foldl cancelStatementSafely st = st := by
  induction triggers with
  | nil => rfl
  | cons b rest ih =>
      simp only [List.foldl_cons, cancelStatementSafely, h, if_true]
      exact ih

/-- The polling loop emits exactly one progress event per status fetch. -/
theorem pollLoop_count (polls : List StatementState) :
    ∀ (s0 : StatementState) (evs : List PollEvent) (t : StatementState),
    pollLoop s0 polls = some (evs, t) →
    evs.countP isProgressEvent = evs.countP isFetchEvent := by
  induction polls with
  | nil =>
      intro s0 evs t h
      rw [pollLoop] at h
      cases hterm : isTerminal s0 with
      | true =>
          simp only [hterm, if_true, Option.some.injEq, Prod.mk.injEq] at h
          rw [← h.1]
          rfl
      | false => simp [hterm] at h
  | cons s2 rest ih =>
      intro s0 evs t h
      rw [pollLoop] at h
      cases hterm : isTerminal s0 with
      | true =>
          simp only [hterm, if_true, Option.some.injEq, Prod.mk.injEq] at h
          rw [← h.1]
          rfl
      | false =>
          simp only [hterm, Bool.false_eq_true, if_false] at h
          cases hq : pollLoop s2 rest with
          | none => rw [hq] at h; simp at h
          | some p =>
              rw [hq] at h
              simp only [Option.map_some', Option.some.injEq, Prod.mk.injEq] at h
              have hrec := ih s2 p.1 p.2 (by rw [hq])
              rw [← h.1]
              simp [List.countP_cons, isProgressEvent, isFetchEvent, hrec]


/-! ## Claim theorems -/

/-- C1: evaluation of collectExternalUrls of src/api/fetchStream.ts at the
failing input of the repository test "should fetch missing chunks when
only first external link is present": a SUCCEEDED external-link result
whose payload supplies a URL for chunk 0 only, out of
total_chunk_count = 2.  The claim (with the spec and the test) requires
chunk metadata to be fetched for exactly the missing index 1 and the full
two-URL list to be returned; the code instead returns early with the
payload URL alone and fetches no chunk metadata at all. -/
theorem c1_collectExternalUrls_failing_input :
    collectExternalUrls c1Result c1Manifest c1ChunkAt =
      ([], ["https://mock/chunk0.json"]) := by
  rfl

/-- The revised collectExternalUrls (the implementation the test suite
asserts) does fetch exactly the missing index 1 and returns both URLs in
ascending chunk order on the same input. -/
theorem collectExternalUrlsRev_subset_eval :
    collectExternalUrlsRev c1Result c1Manifest c1ChunkAt =
      ([1], ["https://mock/chunk0.json", "https://mock/chunk1.json"]) := by
  rfl

/-- C2: mergeChunksToStream routes by resolved URL count: zero URLs end
the stream immediately with no remote fetch and no merge; exactly one URL
without forceMerge is piped directly without the merge engine; two or more
URLs, or one URL with forceMerge, invoke the merge engine with the ordered
URL list and the manifest format tag. -/
theorem c2_mergeChunksToStream_routing :
    ∀ (urls : List String) (format : String) (forceMerge : Bool),
    (urls = [] → mergeChunksToStream urls format forceMerge = .endEmpty) ∧
    (∀ u, urls = [u] → forceMerge = false →
      mergeChunksToStream urls format forceMerge = .pipeSingle u) ∧
    (∀ u, urls = [u] → forceMerge = true →
      mergeChunksToStream urls format forceMerge = .mergeUrls format urls) ∧
    (2 ≤ urls.length →
      mergeChunksToStream urls format forceMerge = .mergeUrls format urls) := by
  intro urls format forceMerge
  refine ⟨?_, ?_, ?_, ?_⟩
  · rintro rfl
    rfl
  · rintro u rfl rfl
    rfl
  · rintro u rfl rfl
    rfl
  · intro h
    have h0 : ¬ urls.length = 0 := by omega
    have h1 : ¬ (urls.length = 1 ∧ forceMerge = false) := by
      rintro ⟨h1, _⟩
      omega
    simp only [mergeChunksToStream, h0, h1, if_false]

/-- Witness for C2 at concrete inputs: each routing branch observed. -/
theorem c2_witness :
    mergeChunksToStream [] "JSON_ARRAY" false = .endEmpty ∧
    mergeChunksToStream ["u1"] "JSON_ARRAY" false = .pipeSingle "u1" ∧
    mergeChunksToStream ["u1"] "JSON_ARRAY" true = .mergeUrls "JSON_ARRAY" ["u1"] ∧
    mergeChunksToStream ["u1", "u2"] "CSV" false = .mergeUrls "CSV" ["u1", "u2"] :=
  ⟨(c2_mergeChunksToStream_routing [] "JSON_ARRAY" false).1 rfl,
   (c2_mergeChunksToStream_routing ["u1"] "JSON_ARRAY" false).2.1 "u1" rfl rfl,
   (c2_mergeChunksToStream_routing ["u1"] "JSON_ARRAY" true).2.2.1 "u1" rfl rfl,
   (c2_mergeChunksToStream_routing ["u1", "u2"] "CSV" false).2.2.2 (by decide)⟩

/-- C3: the synchronous precondition checks of fetchStream: a
non-SUCCEEDED result throws the invalid-state error with the fixed message
template, a SUCCEEDED result without manifest throws the missing-manifest
error, and a SUCCEEDED result carrying inline data_array throws the
format-unsupported error; every one of the three errors carries the
statement id and its machine-checkable code. -/
theorem c3_fetchStream_preconditions :
    ∀ r : StatementResult,
    (r.status.state ≠ .SUCCEEDED →
      fetchStreamValidate r = .error (DatabricksSqlError
        ("Cannot fetch from non-succeeded statement: " ++
          stateToString r.status.state)
        (some "INVALID_STATE") (some r.statement_id))) ∧
    (r.status.state = .SUCCEEDED → r.manifest = none →
      fetchStreamValidate r = .error (DatabricksSqlError
        "Statement result has no manifest"
        (some "MISSING_MANIFEST") (some r.statement_id))) ∧
    (∀ m, r.status.state = .SUCCEEDED → r.manifest = some m →
      (r.result.bind (fun d => d.data_array)).isSome = true →
      fetchStreamValidate r = .error (DatabricksSqlError
        "fetchStream only supports EXTERNAL_LINKS results"
        (some "UNSUPPORTED_FORMAT") (some r.statement_id))) := by
  intro r
  refine ⟨?_, ?_, ?_⟩
  · intro h
    simp only [fetchStreamValidate, validateSucceededResult, h, if_pos, ne_eq,
      not_false_eq_true, if_true, reduceIte]
    rfl
  · intro h hm
    simp only [fetchStreamValidate, validateSucceededResult, h, hm, ne_eq,
      not_true_eq_false, if_false, reduceIte]
    rfl
  · intro m h hm hd
    simp only [fetchStreamValidate, validateSucceededResult, h, hm, hd, ne_eq,
      not_true_eq_false, if_false, reduceIte, if_true]
    rfl

/-- Witness for C3 at the three concrete results of the repository test
fixtures. -/
theorem c3_witness :
    fetchStreamValidate pendingResult = .error (DatabricksSqlError
      "Cannot fetch from non-succeeded statement: PENDING"
      (some "INVALID_STATE") (some "test")) ∧
    fetchStreamValidate noManifestResult = .error (DatabricksSqlError
      "Statement result has no manifest"
      (some "MISSING_MANIFEST") (some "test")) ∧
    fetchStreamValidate inlineResult = .error (DatabricksSqlError
      "fetchStream only supports EXTERNAL_LINKS results"
      (some "UNSUPPORTED_FORMAT") (some "inline-test")) :=
  ⟨(c3_fetchStream_preconditions pendingResult).1 (by decide),
   (c3_fetchStream_preconditions noManifestResult).2.1 rfl rfl,
   (c3_fetchStream_preconditions inlineResult).2.2 c1Manifest rfl rfl rfl⟩

/-- C4: terminal classification of executeStatement: SUCCEEDED returns
the result as-is; CANCELED raises StatementCancelledError carrying the
statement id; FAILED or CLOSED raises a DatabricksSqlError whose message
is the server-supplied one when present and the generic
"Statement execution failed" otherwise, and whose code is the
server-supplied error code when present. -/
theorem c4_terminal_classification :
    ∀ r : StatementResult,
    (r.status.state = .SUCCEEDED → handleTerminalState r = .ok r) ∧
    (r.status.state = .CANCELED →
      handleTerminalState r = .error (StatementCancelledError r.statement_id)) ∧
    (r.status.state = .FAILED ∨ r.status.state = .CLOSED →
      handleTerminalState r = .error (DatabricksSqlError
        ((r.status.error.bind (fun e => e.message)).getD "Statement execution failed")
        (r.status.error.bind (fun e => e.error_code))
        (some r.statement_id))) := by
  intro r
  refine ⟨?_, ?_, ?_⟩
  · intro h
    simp [handleTerminalState, h]
  · intro h
    simp [handleTerminalState, h]
  · rintro (h | h) <;> simp [handleTerminalState, h]

/-- Witness for C4 at a SUCCEEDED, a CANCELED, a FAILED result with server
error detail, and a CLOSED result without detail. -/
theorem c4_witness :
    handleTerminalState succeededResult = .ok succeededResult ∧
    handleTerminalState canceledResult =
      .error (StatementCancelledError "cancel-test") ∧
    handleTerminalState failedResult = .error (DatabricksSqlError
      "Syntax error in SQL statement" (some "SYNTAX_ERROR")
      (some "01f0e17f-failed-test")) ∧
    handleTerminalState closedResult = .error (DatabricksSqlError
      "Statement execution failed" none (some "closed-test")) :=
  ⟨(c4_terminal_classification succeededResult).1 rfl,
   (c4_terminal_classification canceledResult).2.1 rfl,
   (c4_terminal_classification failedResult).2.2 (Or.inl rfl),
   (c4_terminal_classification closedResult).2.2 (Or.inr rfl)⟩

/-- C5: on every non-aborted run with a progress callback that reaches a
terminal state, the progress callback is invoked exactly once per poll
iteration (one status fetch each) plus exactly once after the terminal
state: the count of progress events is the count of status-fetch events
plus one, never fewer and never more; the run observing PENDING, RUNNING,
SUCCEEDED produces exactly this trace, with exactly three progress
invocations. -/
theorem c5_progress_once_per_poll :
    (∀ (s0 : StatementState) (polls : List StatementState)
      (evs : List PollEvent) (t : StatementState),
      executeStatementEvents s0 polls = some (evs, t) →
      evs.countP isProgressEvent = evs.countP isFetchEvent + 1) ∧
    executeStatementEvents .PENDING [.RUNNING, .SUCCEEDED] =
      some ([.progress .PENDING, .statusFetch .RUNNING, .progress .RUNNING,
        .statusFetch .SUCCEEDED, .progress .SUCCEEDED], .SUCCEEDED) ∧
    ([.progress .PENDING, .statusFetch .RUNNING, .progress .RUNNING,
      .statusFetch .SUCCEEDED,
      .progress .SUCCEEDED] : List PollEvent).countP isProgressEvent = 3 := by
  refine ⟨?_, by rfl, by rfl⟩
  intro s0 polls evs t h
  unfold executeStatementEvents at h
  cases hq : pollLoop s0 polls with
  | none => rw [hq] at h; simp at h
  | some p =>
      rw [hq] at h
      simp only [Option.map_some', Option.some.injEq, Prod.mk.injEq] at h
      have hrec := pollLoop_count polls s0 p.1 p.2 (by rw [hq])
      rw [← h.1]
      simp [List.countP_append, isProgressEvent, isFetchEvent, hrec]

/-- Witness for C5: the count equation discharged on the concrete
PENDING, RUNNING, SUCCEEDED trace. -/
theorem c5_witness :
    ([.progress .PENDING, .statusFetch .RUNNING, .progress .RUNNING,
      .statusFetch .SUCCEEDED,
      .progress .SUCCEEDED] : List PollEvent).countP isProgressEvent =
    ([.progress .PENDING, .statusFetch .RUNNING, .progress .RUNNING,
      .statusFetch .SUCCEEDED,
      .progress .SUCCEEDED] : List PollEvent).countP isFetchEvent + 1 :=
  c5_progress_once_per_poll.1 .PENDING [.RUNNING, .SUCCEEDED]
    [.progress .PENDING, .statusFetch .RUNNING, .progress .RUNNING,
      .statusFetch .SUCCEEDED, .progress .SUCCEEDED] .SUCCEEDED (by rfl)

/-- C6: however many times the abort trigger fires (each remote
cancellation attempt succeeding or failing arbitrarily), at most one
remote cancellation request is issued — exactly min(triggers, 1), the
cancelIssued flag making repeated triggers no-ops — and the abort path
always fails with the abort-class error regardless of the remote
cancellation outcome. -/
theorem c6_cancel_idempotent_abort_wins :
    (∀ triggers : List Bool,
      (triggers.foldl cancelStatementSafely
        { cancelIssued := false, cancelRequests := 0 }).cancelRequests =
        min triggers.length 1) ∧
    (∀ (st : CancelState) (remoteOk : Bool),
      (abortPath st remoteOk).2 = .error (AbortError "Aborted during polling")) := by
  constructor
  · intro triggers
    cases triggers with
    | nil => rfl
    | cons b rest =>
        have h1 : cancelStatementSafely
            { cancelIssued := false, cancelRequests := 0 } b =
            { cancelIssued := true, cancelRequests := 1 } := rfl
        rw [List.foldl_cons, h1,
          foldl_cancel_fixed rest { cancelIssued := true, cancelRequests := 1 } rfl]
        simp
  · intro st remoteOk
    rfl

/-- C7: fetchRow on a SUCCEEDED external-link result whose manifest format
is not JSON_ARRAY (CSV, for example) raises the format-unsupported error
carrying the statement id during the synchronous dispatch, before any
stream is opened and before any network request. -/
theorem c7_fetchRow_format_check :
    ∀ (r : StatementResult) (m : StatementManifest),
    r.status.state = .SUCCEEDED → r.manifest = some m →
    (r.result.bind (fun d => d.external_links)).isSome = true →
    m.format ≠ "JSON_ARRAY" →
    fetchRowValidate r = .error (DatabricksSqlError
      ("fetchRow only supports JSON_ARRAY for external_links. Received: " ++
        m.format)
      (some "UNSUPPORTED_FORMAT") (some r.statement_id)) := by
  intro r m h hm hl hf
  have hv : validateSucceededResult r = .ok m := by
    simp [validateSucceededResult, h, hm]
  rw [fetchRowValidate, hv, exceptBind_ok]
  simp only [hl, reduceIte]
  split
  · rfl
  · next hcond => exact absurd hf hcond

/-- Witness for C7 at the concrete CSV external-link result. -/
theorem c7_witness :
    fetchRowValidate csvExternalResult = .error (DatabricksSqlError
      "fetchRow only supports JSON_ARRAY for external_links. Received: CSV"
      (some "UNSUPPORTED_FORMAT") (some "csv-test")) :=
  c7_fetchRow_format_check csvExternalResult
    { format := "CSV"
      schema := { column_count := 1, columns := [] }
      total_chunk_count := 1
      total_row_count := none
      total_byte_count := none
      truncated := none
      chunks := none }
    rfl rfl rfl (by decide)

/-! ## Decimal round-trip lemmas -/

/-- The digit character of a value below ten decodes back to it. -/
theorem charToDigit_digitChar (d : Nat) (h : d < 10) :
    charToDigit (digitChar d) = some d := by
  interval_cases d <;> decide

/-- Appending one digit multiplies the value by ten and adds it. -/
theorem digitsVal_append (xs : List Char) (c : Char) :
    digitsVal (xs ++ [c]) = 10 * digitsVal xs + (charToDigit c).getD 0 := by
  simp [digitsVal, List.foldl_append]

/-- A digit character is not whitespace. -/
theorem isJsWhitespace_eq_false_of_digit (c : Char) (h : isDigitChar c = true) :
    isJsWhitespace c = false := by
  cases hws : isJsWhitespace c with
  | false => rfl
  | true =>
      exfalso
      have hmem : c = ' ' ∨ c = '\t' ∨ c = '\n' ∨ c = '\r' := by
        simpa [isJsWhitespace] using hws
      rcases hmem with rfl | rfl | rfl | rfl <;> exact absurd h (by decide)

/-- dropWhile does nothing on a list none of whose elements satisfy the
predicate. -/
theorem dropWhile_eq_self_of_forall (p : Char → Bool) (l : List Char)
    (h : ∀ c ∈ l, p c = false) : l.dropWhile p = l := by
  cases l with
  | nil => rfl
  | cons c rest =>
      rw [List.dropWhile_cons, h c (List.mem_cons_self c rest)]
      simp

/-- trim does nothing on a list without whitespace characters. -/
theorem trimChars_eq_self (l : List Char)
    (h : ∀ c ∈ l, isJsWhitespace c = false) : trimChars l = l := by
  unfold trimChars
  rw [dropWhile_eq_self_of_forall _ _ h,
    dropWhile_eq_self_of_forall _ _ (fun c hc => h c (List.mem_reverse.mp hc)),
    List.reverse_reverse]

/-- The decimal digits of a natural number, at sufficient fuel: non-empty,
all digits, decoding back to the number. -/
theorem natToDigitsAux_spec (fuel : Nat) :
    ∀ n : Nat, n < fuel →
    natToDigitsAux fuel n ≠ [] ∧
    (natToDigitsAux fuel n).all isDigitChar = true ∧
    digitsVal (natToDigitsAux fuel n) = n := by
  induction fuel with
  | zero => intro n h; omega
  | succ fuel ih =>
      intro n h
      rw [natToDigitsAux]
      by_cases h10 : n < 10
      · rw [if_pos h10]
        refine ⟨by simp, ?_, ?_⟩
        · simp [List.all_cons, isDigitChar, charToDigit_digitChar n h10]
        · simp [digitsVal, charToDigit_digitChar n h10]
      · rw [if_neg h10]
        have hdiv : n / 10 < fuel := by
          have h1 : n / 10 < n := Nat.div_lt_self (by omega) (by omega)
          omega
        obtain ⟨hne, hall, hval⟩ := ih (n / 10) hdiv
        have hmod : n % 10 < 10 := Nat.mod_lt _ (by omega)
        refine ⟨by simp, ?_, ?_⟩
        · rw [List.all_append]
          simp [hall, List.all_cons, isDigitChar, charToDigit_digitChar _ hmod]
        · rw [digitsVal_append, hval, charToDigit_digitChar _ hmod]
          simp [Nat.div_add_mod]

/-- natToDigits is non-empty, all digits, and decodes back. -/
theorem natToDigits_spec (n : Nat) :
    natToDigits n ≠ [] ∧ (natToDigits n).all isDigitChar = true ∧
    digitsVal (natToDigits n) = n :=
  natToDigitsAux_spec (n + 1) n (by omega)

/-- parseDigits inverts natToDigits. -/
theorem parseDigits_natToDigits (n : Nat) :
    parseDigits (natToDigits n) = some n := by
  obtain ⟨hne, hall, hval⟩ := natToDigits_spec n
  rw [parseDigits, if_pos ⟨hne, hall⟩, hval]

/-- parseBigInt on a rendered non-empty digit run. -/
theorem parseBigInt_of_digits (l : List Char) (hne : l ≠ [])
    (hall : l.all isDigitChar = true) :
    parseBigInt ⟨l⟩ = (parseDigits l).map (fun k => (k : Int)) := by
  obtain ⟨d, rest, hds⟩ := List.exists_cons_of_ne_nil hne
  have hd : isDigitChar d = true := by
    refine List.all_eq_true.mp hall d ?_
    rw [hds]
    exact List.mem_cons_self d rest
  have hnws : ∀ c ∈ l, isJsWhitespace c = false := fun c hc =>
    isJsWhitespace_eq_false_of_digit c (List.all_eq_true.mp hall c hc)
  have htrim : trimChars (String.toList ⟨l⟩) = l := trimChars_eq_self l hnws
  have hdplus : (d = '+') = False := by
    simp only [eq_iff_iff, iff_false]
    rintro rfl
    exact absurd hd (by decide)
  have hdminus : (d = '-') = False := by
    simp only [eq_iff_iff, iff_false]
    rintro rfl
    exact absurd hd (by decide)
  rw [parseBigInt, htrim, hds]
  simp only [List.headD_cons, hdplus, hdminus, reduceCtorEq, if_false, reduceIte]

/-- parseBigInt on a rendered sign-prefixed non-empty digit run. -/
theorem parseBigInt_neg_of_digits (l : List Char)
    (hall : l.all isDigitChar = true) :
    parseBigInt ⟨'-' :: l⟩ = (parseDigits l).map (fun k => -(k : Int)) := by
  have hnws : ∀ c ∈ ('-' :: l), isJsWhitespace c = false := by
    intro c hc
    rcases List.mem_cons.mp hc with rfl | hc2
    · rfl
    · exact isJsWhitespace_eq_false_of_digit c (List.all_eq_true.mp hall c hc2)
  have htrim : trimChars (String.toList ⟨'-' :: l⟩) = '-' :: l :=
    trimChars_eq_self _ hnws
  rw [parseBigInt, htrim]
  simp only [List.headD_cons, reduceCtorEq, if_false, reduceIte, List.tail_cons]
  rfl

/-- BigInt() coercion inverts the decimal-string rendering: the round-trip
on every integer is exact. -/
theorem parseBigInt_decimalString (n : Int) :
    parseBigInt (decimalString n) = some n := by
  obtain ⟨hne, hall, hval⟩ := natToDigits_spec n.natAbs
  by_cases hneg : n < 0
  · have hrepr : decimalString n = ⟨'-' :: natToDigits n.natAbs⟩ := by
      rw [decimalString, if_pos hneg]
    rw [hrepr, parseBigInt_neg_of_digits _ hall, parseDigits_natToDigits]
    show some (-(n.natAbs : Int)) = some n
    exact congrArg some (by omega)
  · have hrepr : decimalString n = ⟨natToDigits n.natAbs⟩ := by
      rw [decimalString, if_neg hneg]
    rw [hrepr, parseBigInt_of_digits _ hne hall, parseDigits_natToDigits]
    show some ((n.natAbs : Int)) = some n
    exact congrArg some (by omega)

/-- C8: the scenario column: the declared type text parses to the
recursive descriptor with every NOT NULL suffix stripped (the field type
texts are INT, STRING, BIGINT and the inner STRUCT), and the row mapper
built for JSON_OBJECT output decodes the JSON cell to the nested object
with the INT field as a number, the STRING field as a string, and the
BIGINT field as the exact arbitrary-precision integer 9007199254740993. -/
theorem c8_struct_scenario :
    parseColumnType c8Column =
      .mk "STRUCT"
        "STRUCT<a: INT NOT NULL, b: STRUCT<c: STRING NOT NULL, big: BIGINT NOT NULL>>"
        none none
        (some [("a", .mk "INT" "INT" none none none none none none),
          ("b", .mk "STRUCT" "STRUCT<c: STRING NOT NULL, big: BIGINT NOT NULL>"
            none none
            (some [("c", .mk "STRING" "STRING" none none none none none none),
              ("big", .mk "BIGINT" "BIGINT" none none none none none none)])
            none none none)])
        none none none ∧
    createRowMapper c8Manifest (some "JSON_OBJECT") {} [.str c8Cell] =
      .ok (.obj [("nested", .obj [("a", .num (.int 1)),
        ("b", .obj [("c", .str "x"),
          ("big", .bigint 9007199254740993)])])]) :=
  ⟨rfl, rfl⟩

/-- The row mapper on a single BIGINT column routes the cell through
convertInteger. -/
theorem rowMapperBigint_eq (s : String) :
    createRowMapper bigintManifest (some "JSON_OBJECT") {} [.str s] =
      .ok (.obj [("big", convertInteger (.str s) none)]) := rfl

/-- convertInteger on a string the BigInt() coercion accepts. -/
theorem convertInteger_str_some (s : String) (k : Int)
    (h : parseBigInt s = some k) :
    convertInteger (.str s) none = .bigint k := by
  simp [convertInteger, h]

/-- C9: decoding the decimal-string representation of any integer through
the row mapper on a BIGINT column yields the exact arbitrary-precision
integer — in particular for every integer beyond 2 to the 53rd, where a
double would lose precision. -/
theorem c9_bigint_roundtrip (n : Int) (_h : 2 ^ 53 < n.natAbs) :
    createRowMapper bigintManifest (some "JSON_OBJECT") {}
      [.str (decimalString n)] = .ok (.obj [("big", .bigint n)]) := by
  rw [rowMapperBigint_eq,
    convertInteger_str_some _ n (parseBigInt_decimalString n)]

/-- Witness for C9 at 9007199254740993, one above 2 to the 53rd. -/
theorem c9_witness :
    2 ^ 53 < (9007199254740993 : Int).natAbs ∧
    createRowMapper bigintManifest (some "JSON_OBJECT") {}
      [.str (decimalString 9007199254740993)] =
      .ok (.obj [("big", .bigint 9007199254740993)]) :=
  ⟨by norm_num, c9_bigint_roundtrip 9007199254740993 (by norm_num)⟩

/-- C10: the BIGINT/LONG cell conversion is total and never raises: a
string the BigInt() coercion rejects is returned unchanged (the parse
failure is caught), a non-integral number is returned unchanged, every
non-string/non-number/non-bigint value passes through unchanged, and
convertValue on a BIGINT column descriptor always succeeds, whatever the
cell and the hooks. -/
theorem c10_convertInteger_total :
    (∀ (s : String) (hook : Option (Int → JSValue)),
      parseBigInt s = none → convertInteger (.str s) hook = .str s) ∧
    (∀ (t : String) (hook : Option (Int → JSValue)),
      convertInteger (.num (.nonInt t)) hook = .num (.nonInt t)) ∧
    (∀ hook : Option (Int → JSValue),
      convertInteger .null hook = .null ∧
      convertInteger .undefined hook = .undefined ∧
      (∀ b : Bool, convertInteger (.bool b) hook = .bool b) ∧
      (∀ xs : List JSValue, convertInteger (.arr xs) hook = .arr xs) ∧
      (∀ fs : List (String × JSValue), convertInteger (.obj fs) hook = .obj fs)) ∧
    (∀ (fuel : Nat) (v : JSValue) (options : RowMapperOptions),
      exceptIsOk (convertValueF fuel (leafDescriptor "BIGINT" "BIGINT") v options) =
        true) := by
  refine ⟨?_, ?_, ?_, ?_⟩
  · intro s hook h
    simp [convertInteger, h]
  · intro t hook
    rfl
  · intro hook
    exact ⟨rfl, rfl, fun b => rfl, fun xs => rfl, fun fs => rfl⟩
  · intro fuel v options
    cases fuel with
    | zero => rfl
    | succ fuel =>
        cases hv : isNullish v with
        | true => simp [convertValueF, hv, exceptIsOk]
        | false => simp [convertValueF, hv, exceptIsOk, leafDescriptor,
            TypeDescriptor.typeName, TypeDescriptor.fields,
            TypeDescriptor.elementType, TypeDescriptor.keyType,
            TypeDescriptor.valueType, INTEGER_TYPES, BIGINT_TYPES,
            FLOAT_TYPES, BOOLEAN_TYPES, TIMESTAMP_TYPES, STRING_TYPES]

/-- Witness for C10: the parse-failure hypothesis discharged at the
concrete non-integer literal 12.5. -/
theorem c10_witness :
    parseBigInt "12.5" = none ∧
    convertInteger (.str "12.5") none = .str "12.5" :=
  ⟨by decide, c10_convertInteger_total.1 "12.5" none (by decide)⟩

/-! ## Supporting development: the revised chunk-URL resolution fetches
exactly the missing indices -/

/-- The in-place bucket update of chunkMapAppend never changes which keys
are present. -/
theorem chunkMapHas_map_update (m : ChunkMap) (k2 : Nat) (url : String)
    (k : Nat) :
    chunkMapHas (m.map (fun e => if e.1 = k2 then (e.1, e.2 ++ [url]) else e)) k =
      chunkMapHas m k := by
  unfold chunkMapHas
  rw [List.any_map]
  congr 1
  funext e
  by_cases he : e.1 = k2 <;> simp [Function.comp, he]

/-- chunkMapAppend at one key leaves membership of every other key
unchanged. -/
theorem chunkMapHas_append_ne (m : ChunkMap) (k2 : Nat) (url : String)
    (k : Nat) (hk : ¬ k = k2) :
    chunkMapHas (chunkMapAppend m k2 url) k = chunkMapHas m k := by
  unfold chunkMapAppend
  split
  · exact chunkMapHas_map_update m k2 url k
  · unfold chunkMapHas
    rw [List.any_append]
    simp [List.any_cons, Ne.symm hk]

/-- Merging the links of one chunk, all carrying that chunk index, leaves
membership of every other key unchanged. -/
theorem chunkMapHas_addChunkLinks_ne (i k : Nat) (hk : ¬ k = i) :
    ∀ links : List ExternalLinkInfo, (∀ l ∈ links, l.chunk_index = i) →
    ∀ m : ChunkMap,
    chunkMapHas (addChunkLinks m (some links)) k = chunkMapHas m k := by
  intro links
  induction links with
  | nil => intro _ m; rfl
  | cons l rest ih =>
      intro hl m
      have hstep : addChunkLinks m (some (l :: rest)) =
          addChunkLinks
            (if isNonEmptyString l.external_link then
              chunkMapAppend m l.chunk_index l.external_link
            else m) (some rest) := rfl
      rw [hstep, ih (fun x hx => hl x (List.mem_cons_of_mem l hx))]
      split
      · refine chunkMapHas_append_ne m l.chunk_index l.external_link k ?_
        rw [hl l (List.mem_cons_self l rest)]
        exact hk
      · rfl

/-- The per-index loop of the revised collectExternalUrls fetches exactly
the indices not yet covered by the map, in list order, when the
chunk-metadata service reports links only under their own chunk index. -/
theorem collectLoop_fetched (chunkAt : Nat → GetChunkResponse)
    (hor : ∀ i links, (chunkAt i).external_links = some links →
      ∀ l ∈ links, l.chunk_index = i) :
    ∀ idxs : List Nat, idxs.Nodup →
    ∀ m : ChunkMap,
    (collectLoop chunkAt idxs m).1 = idxs.filter (fun i => !chunkMapHas m i) := by
  intro idxs
  induction idxs with
  | nil => intro _ m; rfl
  | cons i rest ih =>
      intro hnd m
      have hndr : rest.Nodup := (List.nodup_cons.mp hnd).2
      have hni : i ∉ rest := (List.nodup_cons.mp hnd).1
      rw [collectLoop]
      cases hhas : chunkMapHas m i with
      | true =>
          simp only [hhas, if_true]
          rw [ih hndr m]
          simp [List.filter_cons, hhas]
      | false =>
          simp only [hhas, Bool.false_eq_true, if_false]
          have hadd : ∀ j, ¬ j = i →
              chunkMapHas (addChunkLinks m (chunkAt i).external_links) j =
                chunkMapHas m j := by
            intro j hj
            cases hel : (chunkAt i).external_links with
            | none => rfl
            | some links =>
                exact chunkMapHas_addChunkLinks_ne i j hj links (hor i links hel) m
          show i :: (collectLoop chunkAt rest
              (addChunkLinks m (chunkAt i).external_links)).1 = _
          rw [ih hndr]
          rw [List.filter_congr (fun j hjm => by
            rw [hadd j (fun he => hni (he ▸ hjm))])]
          simp [List.filter_cons, hhas]

/-- The revised collectExternalUrls fetches chunk metadata for exactly the
indices of [0, total_chunk_count) not covered by the payload links, in
strictly ascending order, and never for an index the payload already
covers. -/
theorem collectExternalUrlsRev_missing_only (r : StatementResult)
    (manifest : StatementManifest) (chunkAt : Nat → GetChunkResponse)
    (hor : ∀ i links, (chunkAt i).external_links = some links →
      ∀ l ∈ links, l.chunk_index = i) :
    (collectExternalUrlsRev r manifest chunkAt).1 =
      (List.range manifest.total_chunk_count).filter
        (fun i => !chunkMapHas
          (addChunkLinks [] (r.result.bind (fun d => d.external_links))) i) ∧
    List.Pairwise (· < ·) (collectExternalUrlsRev r manifest chunkAt).1 ∧
    (∀ i ∈ (collectExternalUrlsRev r manifest chunkAt).1,
      chunkMapHas
        (addChunkLinks [] (r.result.bind (fun d => d.external_links))) i = false) := by
  have h1 : (collectExternalUrlsRev r manifest chunkAt).1 =
      (List.range manifest.total_chunk_count).filter
        (fun i => !chunkMapHas
          (addChunkLinks [] (r.result.bind (fun d => d.external_links))) i) := by
    unfold collectExternalUrlsRev
    by_cases h0 : manifest.total_chunk_count = 0
    · simp [h0]
    · simp only [h0, if_false, reduceIte]
      exact collectLoop_fetched chunkAt hor _ (List.nodup_range _) _
  refine ⟨h1, ?_, ?_⟩
  · rw [h1]
    exact List.Pairwise.filter _ (List.pairwise_lt_range _)
  · rw [h1]
    intro i hi
    have hmem := List.of_mem_filter hi
    simpa using hmem
